import Mathlib

/-!
Verification of the ApexRun ML service (src/ml-service/main.py and
src/ml-service/tflite_builder.py) against its natural-language
specification.  Machine floats are modelled as exact rationals (and the
transcendental Riegel power `** 1.06` as a real-number power); Python
exceptions are modelled with `Option`/`Except`; the filesystem backing the
artifact store is modelled as an association list from filename to byte
size.
-/

namespace ApexRun

/-- Python's built-in `round` (banker's rounding, ties to even), on any
linear ordered field with a floor function.  `round(x)` returns the nearest
integer, with ties going to the even neighbour. -/
def pyRound {α : Type*} [LinearOrderedField α] [FloorRing α] (x : α) : ℤ :=
  if 2 * (x - (⌊x⌋ : α)) < 1 then ⌊x⌋
  else if 1 < 2 * (x - (⌊x⌋ : α)) then ⌊x⌋ + 1
  else if ⌊x⌋ % 2 = 0 then ⌊x⌋ else ⌊x⌋ + 1

/-- Python's `round(x, 1)`: round to one decimal place. -/
def roundTo1 (q : ℚ) : ℚ := (pyRound (10 * q) : ℚ) / 10

/-- Python's `round(x, 2)`: round to two decimal places. -/
def roundTo2 (q : ℚ) : ℚ := (pyRound (100 * q) : ℚ) / 100

/-- Truncation toward zero, as performed by a C-style float-to-integer
cast (numpy `astype`). -/
def truncQ (x : ℚ) : ℤ := if 0 ≤ x then ⌊x⌋ else -⌊-x⌋

/-- numpy `astype(np.uint8)`: truncate toward zero, then wrap into the
unsigned 8-bit range. -/
def toUint8 (x : ℚ) : ℕ := ((truncQ x) % 256).toNat

/-- Python format `f"{n:02d}"`: decimal rendering padded to width two. -/
def pad2 (n : ℤ) : String := if 0 ≤ n ∧ n < 10 then "0" ++ toString n else toString n

/-! ## Interpretation layer (`_interpret_prediction`, main.py lines 466-504) -/

/-- Result dictionary of `_interpret_prediction`, one constructor per
distinct dictionary shape returned by the Python function. -/
inductive Interp where
  | gait (form_score : ℚ) (level : String)
  | injuryResult (risk_level : String) (confidence pLow pMod pHigh : ℚ)
  | injuryUnknown
  | perf (predicted_5k : String) (s5 s10 shalf smarathon : ℤ)
  | empty
  deriving DecidableEq

/-- Index of the first maximum of a list (numpy `argmax`). -/
def argmaxIdx (l : List ℚ) : ℕ :=
  (List.range l.length).foldl (fun best i => if l.getD best 0 < l.getD i 0 then i else best) 0

/-- Python `max` over a list of numbers (the empty case is never reached
under the guards of the source; it is given the junk value 0). -/
def listMax : List ℚ → ℚ
  | [] => 0
  | x :: xs => xs.foldl max x

/-- The `levels` list of the injury-risk branch of `_interpret_prediction`. -/
def riskLevels : List String := ["low", "moderate", "high"]

/-- Gait branch of `_interpret_prediction` (main.py lines 468-471):
clamp `prediction[0]` to [0,100], bucket into a level. -/
def interpretGaitForm (p : ℚ) : Interp :=
  let score := max 0 (min 100 p)
  let level := if 80 ≤ score then "excellent"
    else if 60 ≤ score then "good"
    else if 40 ≤ score then "needs_work"
    else "poor"
  Interp.gait (roundTo1 score) level

/-- Injury branch of `_interpret_prediction` (main.py lines 473-486).
The `none` result models the uncaught `IndexError` raised by
`levels[risk_idx]` when the argmax index is 3 or more. -/
def interpretInjuryRisk (pred : List ℚ) : Option Interp :=
  if 3 ≤ pred.length then
    match riskLevels.get? (argmaxIdx pred) with
    | some lvl => some (Interp.injuryResult lvl
        (roundTo1 (listMax pred * 100))
        (roundTo1 (pred.getD 0 0 * 100))
        (roundTo1 (pred.getD 1 0 * 100))
        (roundTo1 (pred.getD 2 0 * 100)))
    | none => none
  else some Interp.injuryUnknown

/-- Performance branch of `_interpret_prediction` (main.py lines 488-502):
floor the 5K seconds at 720, format minutes:seconds, and apply Riegel's
exponent-1.06 extrapolation for 10K, half marathon, and marathon. -/
noncomputable def interpretPerformance (p0 : ℚ) : Interp :=
  let t5 : ℚ := max 720 p0
  Interp.perf
    (toString (⌊t5 / 60⌋) ++ ":" ++ pad2 (truncQ (t5 - 60 * ⌊t5 / 60⌋)))
    (pyRound t5)
    (pyRound ((t5 : ℝ) * ((10 : ℝ) / 5) ^ (1.06 : ℝ)))
    (pyRound ((t5 : ℝ) * ((21.1 : ℝ) / 5) ^ (1.06 : ℝ)))
    (pyRound ((t5 : ℝ) * ((42.2 : ℝ) / 5) ^ (1.06 : ℝ)))

/-- Embedding of `_interpret_prediction` (main.py lines 466-504).  The
`none` result models an uncaught Python exception (`IndexError` from
`prediction[0]` on an empty vector or from `levels[risk_idx]`). -/
noncomputable def interpret_prediction (model : String) (prediction : List ℚ) : Option Interp :=
  if model = "gait_form" then
    match prediction with
    | [] => none
    | p :: _ => some (interpretGaitForm p)
  else if model = "injury_risk" then
    interpretInjuryRisk prediction
  else if model = "performance" then
    match prediction with
    | [] => none
    | p :: _ => some (interpretPerformance p)
  else
    some Interp.empty

/-- Projection: the `predicted_5k_seconds` field of a performance result. -/
def perf5K : Option Interp → Option ℤ
  | some (Interp.perf _ s5 _ _ _) => some s5
  | _ => none

/-- Projection: the `predicted_10k_seconds` field of a performance result. -/
def perf10K : Option Interp → Option ℤ
  | some (Interp.perf _ _ s10 _ _) => some s10
  | _ => none

/-- Projection: the `predicted_half_marathon_seconds` field. -/
def perfHalf : Option Interp → Option ℤ
  | some (Interp.perf _ _ _ sh _) => some sh
  | _ => none

/-- Projection: the `predicted_marathon_seconds` field. -/
def perfMarathon : Option Interp → Option ℤ
  | some (Interp.perf _ _ _ _ sm) => some sm
  | _ => none

/-- Projection: the formatted `predicted_5k` string of a performance result. -/
def perfStr : Option Interp → Option String
  | some (Interp.perf s _ _ _ _) => some s
  | _ => none

/-! ## TFLite inference engine (`run_tflite_inference`, tflite_builder.py lines 335-362) -/

/-- numpy element types that can appear on the input/output tensors of the
exported artifacts: `uint8` for full-integer-quantized tensors (the
exporter sets `inference_input_type = tf.uint8`), `float32` otherwise. -/
inductive NpDtype where
  | uint8
  | float32
  deriving DecidableEq

/-- Interpreter tensor details: element type plus the affine quantization
pair `(scale, zero_point)` reported by `get_input_details` /
`get_output_details`. -/
structure TensorDetail where
  dtype : NpDtype
  scale : ℚ
  zeroPoint : ℤ

/-- A loaded TFLite interpreter: input/output tensor details plus the
forward computation on the raw (possibly quantized) tensor values. -/
structure LoadedModel where
  inputDetail : TensorDetail
  outputDetail : TensorDetail
  invoke : List ℚ → List ℚ

/-- Embedding of `run_tflite_inference` (tflite_builder.py lines 335-362).
If the input dtype is `uint8` the input is transformed elementwise by
`(x / input_scale + input_zero).astype(np.uint8)` (a truncating cast);
otherwise it is passed through unchanged (`astype(np.float32)`).  If the
output dtype is `uint8` the raw output is dequantized elementwise by
`(q - output_zero) * output_scale`; otherwise it is returned unchanged. -/
def run_tflite_inference (m : LoadedModel) (input : List ℚ) : List ℚ :=
  let inp := match m.inputDetail.dtype with
    | NpDtype.uint8 =>
        input.map (fun x => ((toUint8 (x / m.inputDetail.scale + (m.inputDetail.zeroPoint : ℚ)) : ℕ) : ℚ))
    | NpDtype.float32 => input
  let out := m.invoke inp
  match m.outputDetail.dtype with
  | NpDtype.uint8 => out.map (fun q => (q - (m.outputDetail.zeroPoint : ℚ)) * m.outputDetail.scale)
  | NpDtype.float32 => out

/-- Modelled from the spec's words for comparison (claim C5): the same
engine but with the forward transform `quantized = round(real / scale +
zero_point)` (rounding, not a truncating cast). -/
def run_tflite_inference_specRound (m : LoadedModel) (input : List ℚ) : List ℚ :=
  let inp := match m.inputDetail.dtype with
    | NpDtype.uint8 =>
        input.map (fun x => ((pyRound (x / m.inputDetail.scale + (m.inputDetail.zeroPoint : ℚ)) : ℤ) : ℚ))
    | NpDtype.float32 => input
  let out := m.invoke inp
  match m.outputDetail.dtype with
  | NpDtype.uint8 => out.map (fun q => (q - (m.outputDetail.zeroPoint : ℚ)) * m.outputDetail.scale)
  | NpDtype.float32 => out

/-- A concrete uint8-input artifact with identity scale and zero point and
an identity computation, used to exhibit the truncation/rounding gap. -/
def demoQuantModel : LoadedModel :=
  { inputDetail := { dtype := NpDtype.uint8, scale := 1, zeroPoint := 0 }
    outputDetail := { dtype := NpDtype.float32, scale := 0, zeroPoint := 0 }
    invoke := fun l => l }

/-- A concrete float32 artifact doubling its input, used as a witness for
the no-transform path. -/
def demoFloatModel : LoadedModel :=
  { inputDetail := { dtype := NpDtype.float32, scale := 0, zeroPoint := 0 }
    outputDetail := { dtype := NpDtype.float32, scale := 0, zeroPoint := 0 }
    invoke := fun l => l.map (fun x => 2 * x) }

/-! ## Artifact store, catalog and HTTP endpoints (main.py) -/

/-- State of the service environment: the artifact directory (filename to
byte-size association list), availability of the TensorFlow runtime, and
the inference computation performed by each stored artifact file. -/
structure MLEnv where
  files : List (String × ℕ)
  tfAvailable : Bool
  runModel : String → List ℚ → List ℚ

/-- `(MODELS_DIR / filename).exists()`. -/
def fileExists (env : MLEnv) (fn : String) : Bool := (env.files.lookup fn).isSome

/-- Outcome of a FastAPI endpoint: a successful payload or an HTTP error
(user-raised `HTTPException` or an uncaught exception surfacing as 500). -/
inductive HttpResult (α : Type) where
  | ok (value : α)
  | error (status : ℕ) (detail : String)
  deriving DecidableEq

/-- The `model_map` dictionary of `tflite_inference` (main.py lines
422-426): task name to artifact filename and expected feature count. -/
def model_map (m : String) : Option (String × ℕ) :=
  if m = "gait_form" then some ("gait_form_model.tflite", 8)
  else if m = "injury_risk" then some ("injury_risk_model.tflite", 7)
  else if m = "performance" then some ("performance_model.tflite", 6)
  else none

/-- Response body of the inference endpoint. -/
structure InferenceResponse where
  model : String
  prediction : List ℚ
  interpretation : Interp

/-- Embedding of the `POST /api/v1/inference` handler `tflite_inference`
(main.py lines 415-463): unknown task → 400; feature-count mismatch → 400;
artifact file absent → 404; TFLite runtime missing → 503; otherwise run
the artifact on the full feature vector and interpret the result (an
exception inside interpretation surfaces as an internal 500). -/
noncomputable def tflite_inference (env : MLEnv) (model : String) (features : List ℚ) :
    HttpResult InferenceResponse :=
  match model_map model with
  | none => HttpResult.error 400 ("Unknown model: " ++ model)
  | some (filename, expected) =>
    if features.length ≠ expected then
      HttpResult.error 400 ("Model expects " ++ toString expected ++ " features, got " ++
        toString features.length)
    else if ¬ fileExists env filename then
      HttpResult.error 404 "Model not built. POST /api/v1/models/build first."
    else if ¬ env.tfAvailable then
      HttpResult.error 503 "TFLite runtime not installed. Use the rule-based endpoints instead."
    else
      let prediction := env.runModel filename features
      match interpret_prediction model prediction with
      | some interp => HttpResult.ok { model := model, prediction := prediction, interpretation := interp }
      | none => HttpResult.error 500 "Internal Server Error"

/-- An inference endpoint result is a validation error when it is an HTTP
400 response. -/
def isValidationError {α : Type} : HttpResult α → Prop
  | HttpResult.ok _ => False
  | HttpResult.error status _ => status = 400

/-- Embedding of the `GET /api/v1/models/{filename}` handler
`download_tflite_model` (main.py lines 353-363): if the file exists in the
artifact directory, serve its bytes (modelled by the filename/size pair);
otherwise 404.  Note the existence check is the only check performed. -/
def download_tflite_model (env : MLEnv) (filename : String) : HttpResult (String × ℕ) :=
  match env.files.lookup filename with
  | some size => HttpResult.ok (filename, size)
  | none => HttpResult.error 404 ("Model '" ++ filename ++ "' not found. Run /api/v1/models/build first.")

/-- Static half of a `model_catalog` entry from `list_tflite_models`
(main.py lines 307-335). -/
structure CatalogInfo where
  name : String
  description : String
  input_features : List String
  deriving DecidableEq

/-- The `model_catalog` dictionary of `list_tflite_models` (main.py lines
307-335), in source (insertion) order. -/
def model_catalog : List (String × CatalogInfo) :=
  [("gait_form_model.tflite",
    { name := "Gait Form Analysis"
      description := "Scores running form (0-100) from biomechanical landmarks"
      input_features := ["ground_contact_time_ms", "vertical_oscillation_cm",
        "cadence_spm", "stride_length_m", "forward_lean_degrees",
        "hip_drop_degrees", "arm_swing_symmetry_pct", "avg_pace_min_per_km"] }),
   ("injury_risk_model.tflite",
    { name := "Injury Risk Prediction"
      description := "Classifies injury risk as low/moderate/high"
      input_features := ["ground_contact_time_ms", "vertical_oscillation_cm",
        "cadence_spm", "stride_length_m", "hip_drop_degrees",
        "weekly_distance_km", "acute_chronic_ratio"] }),
   ("performance_model.tflite",
    { name := "Performance Forecast"
      description := "Predicts 5K race time from training data"
      input_features := ["weekly_distance_km", "avg_pace_min_per_km",
        "run_count_per_week", "longest_run_km",
        "resting_heart_rate", "hrv_rmssd"] })]

/-- The filenames of the three known task artifacts. -/
def catalogFilenames : List String := model_catalog.map Prod.fst

/-- One entry of the catalog listing response. -/
structure TFLiteModelInfo where
  name : String
  filename : String
  size_kb : ℚ
  description : String
  input_features : List String
  download_url : String
  deriving DecidableEq

/-- Embedding of the `GET /api/v1/models` handler `list_tflite_models`
(main.py lines 303-350): for each catalog entry whose artifact file
exists, emit a structured entry with `size_kb = round(size_bytes/1024, 1)`
and a download locator; entries for absent files are omitted. -/
def list_tflite_models (env : MLEnv) : List TFLiteModelInfo :=
  model_catalog.filterMap fun entry =>
    match env.files.lookup entry.1 with
    | some size => some
        { name := entry.2.name
          filename := entry.1
          size_kb := roundTo1 ((size : ℚ) / 1024)
          description := entry.2.description
          input_features := entry.2.input_features
          download_url := "/api/v1/models/" ++ entry.1 }
    | none => none

/-! ## Build pipeline (`build_all_models`, tflite_builder.py lines 388-445,
and the `POST /api/v1/models/build` handler, main.py lines 376-395) -/

/-- Embedding of `build_all_models` (tflite_builder.py lines 388-445).
The per-task pipeline (synthetic data generation, Keras training, TFLite
export, normalization export) is abstracted as `runTask`, returning either
that task's metadata or the exception it raised; the source contains no
per-task exception handling, so the `do` chain propagates the first
failure, abandoning the remaining tasks. -/
def build_all_models {ε μ : Type} (runTask : String → Except ε μ) :
    Except ε (List (String × μ)) := do
  let g ← runTask "gait_form"
  let i ← runTask "injury_risk"
  let p ← runTask "performance"
  Except.ok [("gait_form", g), ("injury_risk", i), ("performance", p)]

/-- Embedding of the `POST /api/v1/models/build` handler
`build_tflite_models` (main.py lines 376-395): missing TensorFlow → 503;
any exception escaping `build_all_models` → 500 for the whole call;
otherwise 200 with the per-task summary. -/
def build_tflite_models {μ : Type} (available : Bool)
    (runTask : String → Except String μ) : HttpResult (String × List (String × μ)) :=
  if ¬ available then
    HttpResult.error 503 "TensorFlow not installed. Model building requires the full tensorflow package."
  else
    match build_all_models runTask with
    | Except.ok results => HttpResult.ok ("success", results)
    | Except.error e => HttpResult.error 500 ("Model build failed: " ++ e)

/-- A concrete build scenario in which the gait task diverges during
training while the other two tasks would succeed. -/
def gaitFailScenario : String → Except String ℕ :=
  fun t => if t = "gait_form" then Except.error "NaN loss during training" else Except.ok 1

/-! ## Quantized exporter (`export_tflite`, tflite_builder.py lines 266-328) -/

/-- The mutable configuration written onto the `TFLiteConverter` by
`export_tflite` before `convert()` is called.  A default-valued record is
the converter's initial state: a plain full-precision conversion. -/
structure ConverterState where
  optimizeDefault : Bool := false
  supportedTypesFloat16 : Bool := false
  supportedOpsInt8 : Bool := false
  hasRepresentativeDataset : Bool := false
  inferenceInputUint8 : Bool := false
  inferenceOutputUint8 : Bool := false
  deriving DecidableEq

/-- The `if/elif` converter-configuration chain of `export_tflite`
(tflite_builder.py lines 284-301), as a function of the requested mode and
of whether calibration data was supplied (`representative_data is not
None`).  No branch matches `int8` without calibration data, so that
combination leaves the converter in its default full-precision state. -/
def configureConverter (quantize : String) (hasRepData : Bool) : ConverterState :=
  if quantize = "float16" then
    { optimizeDefault := true, supportedTypesFloat16 := true }
  else if quantize = "dynamic" then
    { optimizeDefault := true }
  else if quantize = "int8" ∧ hasRepData then
    { optimizeDefault := true, supportedOpsInt8 := true, hasRepresentativeDataset := true,
      inferenceInputUint8 := true, inferenceOutputUint8 := true }
  else
    {}

/-- Embedding of `export_tflite` (tflite_builder.py lines 266-328),
restricted to its control flow: configure the converter from the requested
quantization mode, convert, and record the requested mode string in the
returned metadata.  The source body contains no `raise`, so the result
type carries no error case: every mode/calibration combination proceeds to
a conversion. -/
def export_tflite (quantize : String) (representative_data : Option (List (List ℚ))) :
    ConverterState × String :=
  (configureConverter quantize representative_data.isSome, quantize)

/-! ## Training-load analysis (`analyze_training_load`, main.py lines 224-271) -/

/-- Request body of `POST /api/v1/training/load`. -/
structure TrainingLoadRequest where
  weekly_distance_km : ℚ
  weekly_duration_minutes : ℤ
  run_count : ℤ
  avg_pace_min_per_km : ℚ
  resting_heart_rate : Option ℤ := none
  hrv_rmssd : Option ℚ := none

/-- Response body of `POST /api/v1/training/load`. -/
structure TrainingLoadResponse where
  acute_load : ℚ
  chronic_load : ℚ
  acute_chronic_ratio : ℚ
  training_status : String
  recommendation : String

/-- The `acute_load` local of `analyze_training_load` (main.py line 236):
`weekly_distance_km * (1 + 1 / avg_pace_min_per_km)`. -/
def acuteLoad (r : TrainingLoadRequest) : ℚ :=
  r.weekly_distance_km * (1 + 1 / r.avg_pace_min_per_km)

/-- The `chronic_load` local of `analyze_training_load` (main.py line
240): `acute_load * 0.85`. -/
def chronicLoad (r : TrainingLoadRequest) : ℚ := acuteLoad r * (85 / 100)

/-- Embedding of `analyze_training_load` (main.py lines 224-271).  The
`none` result models the `ZeroDivisionError` raised when
`avg_pace_min_per_km` is zero. -/
def analyze_training_load (r : TrainingLoadRequest) : Option TrainingLoadResponse :=
  if r.avg_pace_min_per_km = 0 then none else
  let acute := acuteLoad r
  let chronic := chronicLoad r
  let acwr : ℚ := if 0 < chronic then acute / chronic else 1
  let sr1 : String × String :=
    if acwr < 4 / 5 then
      ("detraining", "Your training load has decreased significantly. Gradually increase volume to maintain fitness.")
    else if acwr ≤ 13 / 10 then
      ("optimal", "Training load is in the sweet spot. Maintain current progression rate.")
    else if acwr ≤ 3 / 2 then
      ("overreaching", "Training load spike detected. Consider an easy week to allow adaptation.")
    else
      ("overtraining", "High injury risk! Reduce volume by 30-40% this week and focus on recovery.")
  let sr2 : String × String :=
    match r.hrv_rmssd with
    | some h =>
        if h < 30 ∧ sr1.1 = "optimal" then
          ("overreaching", "Low HRV detected despite normal load. Prioritize recovery this week.")
        else sr1
    | none => sr1
  some { acute_load := roundTo1 acute
         chronic_load := roundTo1 chronic
         acute_chronic_ratio := roundTo2 acwr
         training_status := sr2.1
         recommendation := sr2.2 }

/-! ## Helper lemmas -/

/-- Evaluation rule for `pyRound` when the fractional part is below one
half: the result is the floor. -/
lemma pyRound_eval_lo {α : Type*} [LinearOrderedField α] [FloorRing α]
    (x : α) (n : ℤ) (h1 : (n : α) ≤ x) (h2 : 2 * x < 2 * n + 1) : pyRound x = n := by
  have hx2 : x < (n : α) + 1 := by linarith
  have hfl : ⌊x⌋ = n := Int.floor_eq_iff.mpr ⟨h1, by exact_mod_cast hx2⟩
  have hc : 2 * (x - ((⌊x⌋ : ℤ) : α)) < 1 := by rw [hfl]; linarith
  rw [pyRound, if_pos hc, hfl]

/-- Evaluation rule for `pyRound` when the fractional part is above one
half: the result is the floor plus one. -/
lemma pyRound_eval_hi {α : Type*} [LinearOrderedField α] [FloorRing α]
    (x : α) (n : ℤ) (h1 : 2 * n + 1 < 2 * x) (h2 : x < (n : α) + 1) : pyRound x = n + 1 := by
  have hx1 : (n : α) ≤ x := by
    have : (n : α) + 1/2 < x := by linarith
    linarith
  have hfl : ⌊x⌋ = n := Int.floor_eq_iff.mpr ⟨hx1, by exact_mod_cast h2⟩
  have hc1 : ¬ 2 * (x - ((⌊x⌋ : ℤ) : α)) < 1 := by rw [hfl]; linarith
  have hc2 : 1 < 2 * (x - ((⌊x⌋ : ℤ) : α)) := by rw [hfl]; linarith
  rw [pyRound, if_neg hc1, if_pos hc2, hfl]

/-- The floor bounds `pyRound` from below. -/
lemma floor_le_pyRound {α : Type*} [LinearOrderedField α] [FloorRing α] (x : α) :
    ⌊x⌋ ≤ pyRound x := by
  unfold pyRound
  split
  · exact le_refl _
  · split
    · exact le_of_lt (lt_add_one _)
    · split
      · exact le_refl _
      · exact le_of_lt (lt_add_one _)

/-- Any value strictly above one half has a positive Python rounding. -/
lemma one_le_pyRound_of_half_lt (q : ℚ) (h : 1/2 < q) : 1 ≤ pyRound q := by
  rcases le_or_lt 1 (⌊q⌋ : ℚ) with hf | hf
  · calc (1:ℤ) ≤ ⌊q⌋ := by exact_mod_cast hf
      _ ≤ pyRound q := floor_le_pyRound q
  · have h0 : (0:ℚ) ≤ q := by linarith
    have hfl : ⌊q⌋ = 0 := by
      have h01 : ⌊q⌋ < 1 := by exact_mod_cast hf
      have h00 : 0 ≤ ⌊q⌋ := Int.floor_nonneg.mpr h0
      omega
    have hq1 : q < ((0:ℤ) : ℚ) + 1 := by
      have := Int.lt_floor_add_one q
      rw [hfl] at this
      push_cast at this
      norm_num
      linarith
    have := pyRound_eval_hi q 0 (by norm_num; linarith) hq1
    omega

/-- Rounding to one decimal place of a value at least `52/1024` (the
size_kb of any artifact of at least 52 bytes) is positive. -/
lemma roundTo1_pos_of_ge (q : ℚ) (h : 52/1024 ≤ q) : 0 < roundTo1 q := by
  have h1 : 1/2 < 10 * q := by linarith
  have := one_le_pyRound_of_half_lt (10 * q) h1
  unfold roundTo1
  positivity

/-- Python rounding of an integer is that integer. -/
lemma pyRound_intCast {α : Type*} [LinearOrderedField α] [FloorRing α] (n : ℤ) :
    pyRound ((n : α)) = n :=
  pyRound_eval_lo _ n (le_refl _) (by linarith)

/-! ## Claim theorems -/

/-- C7: for every raw output vector with head `p`, the gait_form
interpretation clamps `p` to `[0,100]` and buckets the clamped score into
`excellent` (≥ 80), `good` (≥ 60), `needs_work` (≥ 40) or `poor` (< 40);
at `[100]` it yields form score 100 and level "excellent", and at `[-5]`
it yields form score 0 and level "poor". -/
theorem gait_form_interpretation :
    (∀ (p : ℚ) (rest : List ℚ),
      interpret_prediction "gait_form" (p :: rest) =
        some (Interp.gait (roundTo1 (max 0 (min 100 p)))
          (if 80 ≤ max 0 (min 100 p) then "excellent"
           else if 60 ≤ max 0 (min 100 p) then "good"
           else if 40 ≤ max 0 (min 100 p) then "needs_work"
           else "poor"))) ∧
    interpret_prediction "gait_form" [100] = some (Interp.gait 100 "excellent") ∧
    interpret_prediction "gait_form" [-5] = some (Interp.gait 0 "poor") := by
  refine ⟨fun p rest => by simp [interpret_prediction, interpretGaitForm], ?_, ?_⟩
  · have h2 : roundTo1 (100 : ℚ) = 100 := by
      unfold roundTo1
      rw [pyRound_eval_lo ((10:ℚ) * 100) 1000 (by norm_num) (by norm_num)]
      norm_num
    simp only [interpret_prediction, interpretGaitForm]
    norm_num [h2]
  · have h2 : roundTo1 (0 : ℚ) = 0 := by
      unfold roundTo1
      rw [pyRound_eval_lo ((10:ℚ) * 0) 0 (by norm_num) (by norm_num)]
      norm_num
    simp only [interpret_prediction, interpretGaitForm]
    norm_num [h2]

/-- C10 counterexample: the prediction vector `[0, 0, 0, 1]` has length at
least 3, yet the injury_risk interpretation raises an uncaught IndexError
(modelled as `none`) because the argmax index 3 is out of range for the
three-element `levels` list — contradicting the claim that for every
vector of length at least 3 the predicted class is the argmax class. -/
theorem injury_interpretation_counterexample :
    (3 ≤ ([0, 0, 0, 1] : List ℚ).length) ∧
      interpret_prediction "injury_risk" [0, 0, 0, 1] = none := by
  constructor
  · decide
  · have ha : argmaxIdx [0, 0, 0, 1] = 3 := by decide
    simp [interpret_prediction, interpretInjuryRisk, ha, riskLevels]

/-- C10 amended: the injury_risk interpretation indexes the prediction
vector only under its length-3 guard; for vectors of fewer than 3 elements
it returns exactly the unknown result without raising.  For vectors of
length at least 3 whose argmax index is below 3 (in particular all
vectors of length exactly 3), the predicted class is the argmax class,
the confidence is the maximum value times 100, and the first three
probabilities are reported times 100; but when the argmax index is 3 or
more (possible for vectors longer than 3) the class lookup raises an
uncaught IndexError. -/
theorem injury_interpretation_amended : ∀ pred : List ℚ,
    (pred.length < 3 → interpret_prediction "injury_risk" pred = some Interp.injuryUnknown) ∧
    (3 ≤ pred.length → argmaxIdx pred < 3 →
      interpret_prediction "injury_risk" pred = some (Interp.injuryResult
        (riskLevels.getD (argmaxIdx pred) "")
        (roundTo1 (listMax pred * 100))
        (roundTo1 (pred.getD 0 0 * 100))
        (roundTo1 (pred.getD 1 0 * 100))
        (roundTo1 (pred.getD 2 0 * 100)))) ∧
    (3 ≤ pred.length → 3 ≤ argmaxIdx pred → interpret_prediction "injury_risk" pred = none) := by
  intro pred
  have hd : interpret_prediction "injury_risk" pred = interpretInjuryRisk pred := by
    simp [interpret_prediction]
  refine ⟨?_, ?_, ?_⟩
  · intro h
    rw [hd]
    unfold interpretInjuryRisk
    rw [if_neg (by omega)]
  · intro h3 ha
    rw [hd]
    unfold interpretInjuryRisk
    rw [if_pos h3]
    have : riskLevels.get? (argmaxIdx pred) = some (riskLevels.getD (argmaxIdx pred) "") := by
      set i := argmaxIdx pred with hi
      interval_cases i <;> simp [riskLevels]
    rw [this]
  · intro h3 ha
    rw [hd]
    unfold interpretInjuryRisk
    rw [if_pos h3]
    have : riskLevels.get? (argmaxIdx pred) = none := by
      rw [List.get?_eq_none]
      simpa [riskLevels] using ha
    rw [this]

/-- C10 witness: a concrete length-3 vector with argmax index 1 passes
the amended theorem's hypotheses and receives the moderate class. -/
theorem injury_interpretation_witness :
    interpret_prediction "injury_risk" [10, 70, 20] = some (Interp.injuryResult
      (riskLevels.getD (argmaxIdx [10, 70, 20]) "")
      (roundTo1 (listMax [10, 70, 20] * 100))
      (roundTo1 (([10, 70, 20] : List ℚ).getD 0 0 * 100))
      (roundTo1 (([10, 70, 20] : List ℚ).getD 1 0 * 100))
      (roundTo1 (([10, 70, 20] : List ℚ).getD 2 0 * 100))) :=
  (injury_interpretation_amended [10, 70, 20]).2.1 (by decide) (by decide)

/-- C9: for every training-load request with nonzero pace, the computed
chronic load is 0.85 times the acute load, so the returned
acute:chronic ratio is the constant `round(1/0.85, 2) = 1.18` whenever the
acute load is positive and `1.0` otherwise, and the returned training
status is "optimal" unless `hrv_rmssd` is provided and below 30
(then "overreaching"); "detraining" and "overtraining" never occur. -/
theorem training_load_constant_ratio :
    ∀ r : TrainingLoadRequest, r.avg_pace_min_per_km ≠ 0 →
    ∃ resp, analyze_training_load r = some resp ∧
      chronicLoad r = (85 / 100) * acuteLoad r ∧
      resp.acute_load = roundTo1 (acuteLoad r) ∧
      resp.chronic_load = roundTo1 ((85 / 100) * acuteLoad r) ∧
      resp.acute_chronic_ratio = (if 0 < acuteLoad r then 118 / 100 else 1) ∧
      resp.training_status = (match r.hrv_rmssd with
        | some h => if h < 30 then "overreaching" else "optimal"
        | none => "optimal") ∧
      resp.training_status ≠ "detraining" ∧
      resp.training_status ≠ "overtraining" := by
  intro r hp
  have hch : chronicLoad r = 85 / 100 * acuteLoad r := by rw [chronicLoad]; ring
  have hiff : (0 < chronicLoad r) ↔ (0 < acuteLoad r) := by
    rw [hch]
    constructor <;> intro h <;> nlinarith
  have hr2_20_17 : roundTo2 (20 / 17 : ℚ) = 118 / 100 := by
    unfold roundTo2
    rw [show (100 : ℚ) * (20 / 17) = 2000 / 17 by norm_num,
      pyRound_eval_hi ((2000 : ℚ) / 17) 117 (by norm_num) (by norm_num)]
    norm_num
  have hr2_1 : roundTo2 (1 : ℚ) = 1 := by
    unfold roundTo2
    rw [show (100 : ℚ) * 1 = ((100 : ℤ) : ℚ) by norm_num, pyRound_intCast]
    norm_num
  unfold analyze_training_load
  rw [if_neg hp]
  dsimp only
  by_cases hca : 0 < chronicLoad r
  · have hApos : 0 < acuteLoad r := hiff.mp hca
    have hane : acuteLoad r ≠ 0 := ne_of_gt hApos
    have hacwr : acuteLoad r / chronicLoad r = 20 / 17 := by
      rw [hch]
      field_simp
      ring
    rw [if_pos hca, hacwr]
    have hs1 : ¬ ((20 : ℚ) / 17 < 4 / 5) := by norm_num
    have hs2 : ((20 : ℚ) / 17 ≤ 13 / 10) := by norm_num
    rw [if_neg hs1, if_pos hs2]
    cases hh : r.hrv_rmssd with
    | none =>
        dsimp only
        exact ⟨_, rfl, hch, rfl, by rw [hch],
          by rw [hr2_20_17, if_pos hApos], rfl, by simp, by simp⟩
    | some h =>
        dsimp only
        by_cases hlt : h < 30
        · rw [if_pos (show h < 30 ∧ "optimal" = "optimal" from ⟨hlt, rfl⟩), if_pos hlt]
          exact ⟨_, rfl, hch, rfl, by rw [hch],
            by rw [hr2_20_17, if_pos hApos], rfl, by simp, by simp⟩
        · rw [if_neg (show ¬ (h < 30 ∧ "optimal" = "optimal") from fun hc => hlt hc.1),
            if_neg hlt]
          exact ⟨_, rfl, hch, rfl, by rw [hch],
            by rw [hr2_20_17, if_pos hApos], rfl, by simp, by simp⟩
  · have hAnp : ¬ 0 < acuteLoad r := fun h => hca (hiff.mpr h)
    rw [if_neg hca]
    have hs1 : ¬ ((1 : ℚ) < 4 / 5) := by norm_num
    have hs2 : ((1 : ℚ) ≤ 13 / 10) := by norm_num
    rw [if_neg hs1, if_pos hs2]
    cases hh : r.hrv_rmssd with
    | none =>
        dsimp only
        exact ⟨_, rfl, hch, rfl, by rw [hch],
          by rw [hr2_1, if_neg hAnp], rfl, by simp, by simp⟩
    | some h =>
        dsimp only
        by_cases hlt : h < 30
        · rw [if_pos (show h < 30 ∧ "optimal" = "optimal" from ⟨hlt, rfl⟩), if_pos hlt]
          exact ⟨_, rfl, hch, rfl, by rw [hch],
            by rw [hr2_1, if_neg hAnp], rfl, by simp, by simp⟩
        · rw [if_neg (show ¬ (h < 30 ∧ "optimal" = "optimal") from fun hc => hlt hc.1),
            if_neg hlt]
          exact ⟨_, rfl, hch, rfl, by rw [hch],
            by rw [hr2_1, if_neg hAnp], rfl, by simp, by simp⟩

/-- A concrete training-load request with pace 6 and low HRV. -/
def demoLoadRequest : TrainingLoadRequest :=
  { weekly_distance_km := 40, weekly_duration_minutes := 300, run_count := 5,
    avg_pace_min_per_km := 6, resting_heart_rate := none, hrv_rmssd := some 25 }

/-- C9 witness: the concrete request with pace 6 and low HRV yields the
constant ratio and the overreaching status via the theorem. -/
theorem training_load_constant_ratio_witness :
    ∃ resp, analyze_training_load demoLoadRequest = some resp ∧
      chronicLoad demoLoadRequest = (85 / 100) * acuteLoad demoLoadRequest ∧
      resp.acute_load = roundTo1 (acuteLoad demoLoadRequest) ∧
      resp.chronic_load = roundTo1 ((85 / 100) * acuteLoad demoLoadRequest) ∧
      resp.acute_chronic_ratio = (if 0 < acuteLoad demoLoadRequest then 118 / 100 else 1) ∧
      resp.training_status = (match demoLoadRequest.hrv_rmssd with
        | some h => if h < 30 then "overreaching" else "optimal"
        | none => "optimal") ∧
      resp.training_status ≠ "detraining" ∧
      resp.training_status ≠ "overtraining" :=
  training_load_constant_ratio demoLoadRequest (by norm_num [demoLoadRequest])

/-- C1: for each known task the declared input dimension is 8 (gait_form),
7 (injury_risk) and 6 (performance), and for every known task and every
feature vector the inference endpoint returns an HTTP 400 validation error
if and only if the feature vector's length differs from the declared
dimension; moreover on every successful response the prediction was
computed from the full, unmodified feature vector (never truncated or
padded). -/
theorem inference_feature_count_contract :
    model_map "gait_form" = some ("gait_form_model.tflite", 8) ∧
    model_map "injury_risk" = some ("injury_risk_model.tflite", 7) ∧
    model_map "performance" = some ("performance_model.tflite", 6) ∧
    ∀ (env : MLEnv) (model : String) (features : List ℚ) (filename : String) (expected : ℕ),
      model_map model = some (filename, expected) →
      ((isValidationError (tflite_inference env model features)) ↔ features.length ≠ expected) ∧
      (∀ resp, tflite_inference env model features = HttpResult.ok resp →
        resp.prediction = env.runModel filename features) := by
  refine ⟨rfl, rfl, rfl, ?_⟩
  intro env model features filename expected hm
  unfold tflite_inference
  rw [hm]
  dsimp only
  by_cases hlen : features.length ≠ expected
  · rw [if_pos hlen]
    exact ⟨⟨fun _ => hlen, fun _ => rfl⟩, fun resp h => by cases h⟩
  · rw [if_neg hlen]
    constructor
    · constructor
      · split_ifs
        · split
          · intro hv
            simp [isValidationError] at hv
          · intro hv
            simp [isValidationError] at hv
        · intro hv
          simp [isValidationError] at hv
        · intro hv
          simp [isValidationError] at hv
      · intro hne
        exact absurd hne hlen
    · intro resp
      split_ifs
      · split
        · intro heq
          cases heq
          rfl
        · intro heq
          cases heq
      · intro heq
        cases heq
      · intro heq
        cases heq

/-- An environment with an empty artifact directory and an available
runtime. -/
def demoEnv : MLEnv := { files := [], tfAvailable := true, runModel := fun _ _ => [] }

/-- C1 witness: a five-element feature vector for gait_form (declared
dimension 8) is rejected as a validation error. -/
theorem inference_feature_count_contract_witness :
    isValidationError (tflite_inference demoEnv "gait_form" [1, 2, 3, 4, 5]) :=
  ((inference_feature_count_contract.2.2.2 demoEnv "gait_form" [1, 2, 3, 4, 5]
      "gait_form_model.tflite" 8 rfl).1).mpr (by decide)

/-- C2: requesting an int8 export without calibration data is not
rejected: no configuration branch matches, so `export_tflite` silently
performs a default full-precision conversion (the converter state is
identical to the one for an unrecognized quantization mode) while the
returned metadata still records the mode string "int8".  The embedded
function is total — the source body contains no raise for this
combination.  This contradicts the claim that the exporter rejects the
combination with an explicit error. -/
theorem int8_without_calibration_silently_falls_back :
    export_tflite "int8" none = (configureConverter "none" false, "int8") ∧
    configureConverter "int8" false = ({} : ConverterState) ∧
    (export_tflite "int8" none).1.optimizeDefault = false ∧
    (export_tflite "int8" none).1.supportedOpsInt8 = false ∧
    (export_tflite "int8" none).2 = "int8" ∧
    export_tflite "int8" (some [[1, 2]]) ≠ export_tflite "int8" none := by
  refine ⟨rfl, rfl, rfl, rfl, rfl, ?_⟩
  intro h
  have := congrArg (fun p => p.1.supportedOpsInt8) h
  simp [export_tflite, configureConverter] at this

/-- An environment whose artifact directory contains one artifact and one
normalization-parameters file (as left behind by every successful build). -/
def demoStoreEnv : MLEnv :=
  { files := [("gait_form_model.tflite", 50000), ("gait_form_norm_params.json", 120)],
    tfAvailable := true, runModel := fun _ _ => [] }

/-- C3: the download endpoint serves any file that exists in the artifact
directory — here the normalization-parameters JSON file, which is not one
of the three catalog artifacts — contradicting the claim that lookups
outside the known catalog are rejected with a 404. -/
theorem download_serves_noncatalog_file :
    download_tflite_model demoStoreEnv "gait_form_norm_params.json" =
      HttpResult.ok ("gait_form_norm_params.json", 120) ∧
    "gait_form_norm_params.json" ∉ catalogFilenames := by
  exact ⟨rfl, by decide⟩

/-- C4: in a build where the gait task fails while the other two tasks
would succeed, `build_all_models` aborts at the first failure — the
returned summary is a single error, the succeeding tasks are not reported,
and the build endpoint surfaces one HTTP 500 for the whole call —
contradicting the claim that a failure is scoped to its task only while
the others still run and report independently. -/
theorem build_all_aborts_on_first_failure :
    gaitFailScenario "injury_risk" = Except.ok 1 ∧
    gaitFailScenario "performance" = Except.ok 1 ∧
    build_all_models gaitFailScenario = Except.error "NaN loss during training" ∧
    build_tflite_models true gaitFailScenario =
      HttpResult.error 500 ("Model build failed: " ++ "NaN loss during training") :=
  ⟨rfl, rfl, rfl, rfl⟩

/-- C5 counterexample: on a uint8-input artifact with scale 1 and zero
point 0, the engine quantizes the real input 0.7 to 0 (numpy `astype`
truncates toward zero), whereas the claim's forward transform
`round(real / scale + zero_point)` would give 1. -/
theorem quantized_input_truncation_counterexample :
    run_tflite_inference demoQuantModel [7 / 10] = [0] ∧
    run_tflite_inference_specRound demoQuantModel [7 / 10] = [1] ∧
    ((0 : ℚ) ≠ 1) := by
  have hfl : ⌊(7 : ℚ) / 10⌋ = 0 := Int.floor_eq_iff.mpr ⟨by norm_num, by norm_num⟩
  have h1 : toUint8 ((7 : ℚ) / 10) = 0 := by
    unfold toUint8 truncQ
    rw [if_pos (by norm_num : (0 : ℚ) ≤ 7 / 10), hfl]
    rfl
  have h2 : pyRound ((7 : ℚ) / 10) = 1 := pyRound_eval_hi _ 0 (by norm_num) (by norm_num)
  refine ⟨?_, ?_, by norm_num⟩
  · simp [run_tflite_inference, demoQuantModel, h1]
  · simp [run_tflite_inference_specRound, demoQuantModel, h2]

/-- C5 amended: on a uint8 input tensor the engine applies the forward
affine transform with truncation toward zero (the C-style uint8 cast of
`real / scale + zero_point`), not rounding, before invocation; on a uint8
output tensor it applies the inverse transform `(q - zero_point) * scale`
to the raw output; on float32 tensors no transform is applied.  For
arguments within the uint8 range the truncating cast is the floor of the
nonnegative value. -/
theorem quantization_transform_amended :
    ∀ (m : LoadedModel) (input : List ℚ),
      (m.inputDetail.dtype = NpDtype.float32 → m.outputDetail.dtype = NpDtype.float32 →
        run_tflite_inference m input = m.invoke input) ∧
      (m.inputDetail.dtype = NpDtype.uint8 → m.outputDetail.dtype = NpDtype.float32 →
        run_tflite_inference m input =
          m.invoke (input.map fun x =>
            ((toUint8 (x / m.inputDetail.scale + (m.inputDetail.zeroPoint : ℚ)) : ℕ) : ℚ))) ∧
      (m.inputDetail.dtype = NpDtype.uint8 → m.outputDetail.dtype = NpDtype.uint8 →
        run_tflite_inference m input =
          (m.invoke (input.map fun x =>
            ((toUint8 (x / m.inputDetail.scale + (m.inputDetail.zeroPoint : ℚ)) : ℕ) : ℚ))).map
            (fun q => (q - (m.outputDetail.zeroPoint : ℚ)) * m.outputDetail.scale)) ∧
      (∀ x : ℚ, 0 ≤ x → x < 256 → (toUint8 x : ℤ) = ⌊x⌋) := by
  intro m input
  refine ⟨?_, ?_, ?_, ?_⟩
  · intro h1 h2
    unfold run_tflite_inference
    rw [h1, h2]
  · intro h1 h2
    unfold run_tflite_inference
    rw [h1, h2]
  · intro h1 h2
    unfold run_tflite_inference
    rw [h1, h2]
  · intro x hx hx2
    have hf0 : 0 ≤ ⌊x⌋ := Int.floor_nonneg.mpr hx
    have hf256 : ⌊x⌋ < 256 := Int.floor_lt.mpr (by exact_mod_cast hx2)
    unfold toUint8 truncQ
    rw [if_pos hx, Int.emod_eq_of_lt hf0 hf256, Int.toNat_of_nonneg hf0]

/-- C5 witness: on a concrete float32 artifact the engine passes the
input through to the computation untransformed. -/
theorem quantization_transform_amended_witness :
    run_tflite_inference demoFloatModel [3] = demoFloatModel.invoke [3] :=
  (quantization_transform_amended demoFloatModel [3]).1 rfl rfl

/-- C8: for every state of the artifact directory, the catalog listing
contains exactly the catalog tasks whose artifact file exists (in catalog
order, each exactly once, hence no fabricated entries); every listed entry
carries the catalog name, description and feature names, the rounded
size_kb of the stored file, and its download locator; and any catalog
artifact stored with at least 52 bytes (every real model file) appears
with a strictly positive size_kb. -/
theorem catalog_lists_exactly_existing_artifacts :
    ∀ env : MLEnv,
      ((list_tflite_models env).map (fun e => e.filename) =
        catalogFilenames.filter (fun fn => fileExists env fn)) ∧
      ((list_tflite_models env).map (fun e => e.filename)).Nodup ∧
      (∀ e ∈ list_tflite_models env, ∃ sz,
        env.files.lookup e.filename = some sz ∧
        e.size_kb = roundTo1 ((sz : ℚ) / 1024) ∧
        e.download_url = "/api/v1/models/" ++ e.filename ∧
        (e.filename, CatalogInfo.mk e.name e.description e.input_features) ∈ model_catalog) ∧
      (∀ fn sz, fn ∈ catalogFilenames → env.files.lookup fn = some sz → 52 ≤ sz →
        ∃ e ∈ list_tflite_models env, e.filename = fn ∧ 0 < e.size_kb) := by
  intro env
  have h1 : (list_tflite_models env).map (fun e => e.filename) =
      catalogFilenames.filter (fun fn => fileExists env fn) := by
    rcases hg : env.files.lookup "gait_form_model.tflite" with _ | gsz <;>
      rcases hi : env.files.lookup "injury_risk_model.tflite" with _ | isz <;>
        rcases hp : env.files.lookup "performance_model.tflite" with _ | psz <;>
          simp [list_tflite_models, model_catalog, catalogFilenames, fileExists, hg, hi, hp]
  have h3 : ∀ e ∈ list_tflite_models env, ∃ sz,
      env.files.lookup e.filename = some sz ∧
      e.size_kb = roundTo1 ((sz : ℚ) / 1024) ∧
      e.download_url = "/api/v1/models/" ++ e.filename ∧
      (e.filename, CatalogInfo.mk e.name e.description e.input_features) ∈ model_catalog := by
    intro e he
    obtain ⟨⟨fn, info⟩, hmem, hfe⟩ := List.mem_filterMap.mp he
    rcases hlk : env.files.lookup fn with _ | sz
    · rw [hlk] at hfe
      cases hfe
    · rw [hlk] at hfe
      dsimp only at hfe
      cases hfe
      exact ⟨sz, hlk, rfl, rfl, hmem⟩
  have h2 : ((list_tflite_models env).map (fun e => e.filename)).Nodup := by
    rw [h1]
    exact List.Nodup.filter _ (by decide)
  refine ⟨h1, h2, h3, ?_⟩
  intro fn sz hfn hlk hsz
  have hmem : fn ∈ (list_tflite_models env).map (fun e => e.filename) := by
    rw [h1]
    exact List.mem_filter.mpr ⟨hfn, by simp [fileExists, hlk]⟩
  obtain ⟨e, he, hefn⟩ := List.mem_map.mp hmem
  obtain ⟨sz', hlk', hkb, _, _⟩ := h3 e he
  rw [hefn, hlk] at hlk'
  have hsz' : sz' = sz := by
    cases hlk'
    rfl
  refine ⟨e, he, hefn, ?_⟩
  rw [hkb, hsz']
  apply roundTo1_pos_of_ge
  have h52 : (52 : ℚ) ≤ (sz : ℚ) := by exact_mod_cast hsz
  linarith

/-- C8 witness: in the environment whose directory holds a 50000-byte
gait artifact, the listing contains an entry for it with positive
size_kb. -/
theorem catalog_lists_exactly_existing_artifacts_witness :
    ∃ e ∈ list_tflite_models demoStoreEnv,
      e.filename = "gait_form_model.tflite" ∧ 0 < e.size_kb :=
  (catalog_lists_exactly_existing_artifacts demoStoreEnv).2.2.2
    "gait_form_model.tflite" 50000 (by decide) rfl (by decide)

/-- The Riegel power `2 ^ 1.06` lies between `469/225` and `417/200`,
established by comparing fiftieth powers: `(469/225)^50 ≤ 2^53 < (417/200)^50`. -/
lemma two_rpow_106_bounds :
    (469 / 225 : ℝ) ≤ (2 : ℝ) ^ ((53 : ℝ) / 50) ∧
    (2 : ℝ) ^ ((53 : ℝ) / 50) < (417 / 200 : ℝ) := by
  have hx0 : (0 : ℝ) ≤ (2 : ℝ) ^ ((53 : ℝ) / 50) := Real.rpow_nonneg (by norm_num) _
  have hpow : ((2 : ℝ) ^ ((53 : ℝ) / 50)) ^ (50 : ℕ) = 2 ^ (53 : ℕ) := by
    have h1 : ((2 : ℝ) ^ ((53 : ℝ) / 50)) ^ (50 : ℕ) =
        (2 : ℝ) ^ (((53 : ℝ) / 50) * ((50 : ℕ) : ℝ)) := by
      rw [← Real.rpow_natCast ((2 : ℝ) ^ ((53 : ℝ) / 50)) 50,
        ← Real.rpow_mul (by norm_num : (0 : ℝ) ≤ 2)]
    rw [h1, show ((53 : ℝ) / 50) * ((50 : ℕ) : ℝ) = ((53 : ℕ) : ℝ) by norm_num,
      Real.rpow_natCast]
  constructor
  · exact le_of_pow_le_pow_left (by norm_num : (50 : ℕ) ≠ 0) hx0 (by rw [hpow]; norm_num)
  · exact lt_of_pow_lt_pow_left 50 (by norm_num) (by rw [hpow]; norm_num)

/-- Python rounding of `900 * (10/5) ** 1.06` is 1876 (the true value is
about 1876.44). -/
lemma round_900_riegel10 : pyRound ((900 : ℝ) * ((10 : ℝ) / 5) ^ (1.06 : ℝ)) = 1876 := by
  have h105 : ((10 : ℝ) / 5) = 2 := by norm_num
  have hexp : (1.06 : ℝ) = (53 : ℝ) / 50 := by norm_num
  rw [h105, hexp]
  obtain ⟨hlo, hhi⟩ := two_rpow_106_bounds
  refine pyRound_eval_lo _ 1876 ?_ ?_
  · push_cast
    nlinarith
  · push_cast
    nlinarith

/-- The performance dispatch branch of the interpretation function. -/
lemma interpret_performance_eq (x : ℚ) (rest : List ℚ) :
    interpret_prediction "performance" (x :: rest) = some (interpretPerformance x) := by
  unfold interpret_prediction
  rw [if_neg (by decide), if_neg (by decide), if_pos rfl]

/-- C6 counterexample: interpreting the performance task on raw output
`[900]` yields `predicted_10k_seconds = 1876`, not the 1873 stated by the
claim (`round(900 * 2^1.06)` is 1876, since `2^1.06 ≈ 2.08493`). -/
theorem riegel_10k_value_counterexample :
    perf10K (interpret_prediction "performance" [900]) = some 1876 ∧
    ((1876 : ℤ) ≠ 1873) := by
  constructor
  · rw [interpret_performance_eq]
    unfold interpretPerformance
    dsimp only [perf10K]
    rw [show max (720 : ℚ) 900 = 900 by norm_num]
    rw [show (((900 : ℚ) : ℝ)) = (900 : ℝ) by push_cast; ring]
    rw [round_900_riegel10]
  · decide

/-- C6 amended: interpreting the performance task with raw output `[900]`
yields `predicted_5k_seconds = 900` and `predicted_10k_seconds =
round(900 * 2^1.06)`, which equals 1876 (not 1873), with the
half-marathon and marathon times following the same exponent-1.06 law on
distance ratios `21.1/5` and `42.2/5`; more generally the 5K output is
clamped to a floor of 720 seconds and formatted as minutes:seconds. -/
theorem riegel_interpretation_amended :
    perf5K (interpret_prediction "performance" [900]) = some 900 ∧
    perf10K (interpret_prediction "performance" [900]) =
      some (pyRound ((900 : ℝ) * ((10 : ℝ) / 5) ^ (1.06 : ℝ))) ∧
    pyRound ((900 : ℝ) * ((10 : ℝ) / 5) ^ (1.06 : ℝ)) = 1876 ∧
    perfHalf (interpret_prediction "performance" [900]) =
      some (pyRound ((900 : ℝ) * ((21.1 : ℝ) / 5) ^ (1.06 : ℝ))) ∧
    perfMarathon (interpret_prediction "performance" [900]) =
      some (pyRound ((900 : ℝ) * ((42.2 : ℝ) / 5) ^ (1.06 : ℝ))) ∧
    (∀ (x : ℚ) (rest : List ℚ),
      perf5K (interpret_prediction "performance" (x :: rest)) =
        some (pyRound (max 720 x)) ∧
      perfStr (interpret_prediction "performance" (x :: rest)) =
        some (toString (⌊(max 720 x) / 60⌋) ++ ":" ++
          pad2 (truncQ (max 720 x - 60 * ⌊(max 720 x) / 60⌋)))) := by
  have hd := interpret_performance_eq
  have ht5 : max (720 : ℚ) 900 = 900 := by norm_num
  have hcast : (((900 : ℚ) : ℝ)) = (900 : ℝ) := by push_cast; ring
  have h900 : pyRound (900 : ℚ) = 900 := by
    rw [show (900 : ℚ) = ((900 : ℤ) : ℚ) by norm_num, pyRound_intCast]
  refine ⟨?_, ?_, round_900_riegel10, ?_, ?_, ?_⟩
  · rw [hd]
    unfold interpretPerformance
    dsimp only [perf5K]
    rw [ht5, h900]
  · rw [hd]
    unfold interpretPerformance
    dsimp only [perf10K]
    rw [ht5, hcast]
  · rw [hd]
    unfold interpretPerformance
    dsimp only [perfHalf]
    rw [ht5, hcast]
  · rw [hd]
    unfold interpretPerformance
    dsimp only [perfMarathon]
    rw [ht5, hcast]
  · intro x rest
    rw [hd]
    exact ⟨rfl, rfl⟩

end ApexRun
